import Mathlib

/-!
# Verification of the LASIF station-coordinate query resolver

Shallow embedding of `lasif/components/query.py`
(`QueryComponent.get_all_stations_for_event`) and of the component setup in
`lasif/components/project.py` (`Project.__setup_components`), together with
theorems settling the specification's claims about them.

Python dictionaries are modelled as association lists; Python values that
occur in the resolver (floats/ints, strings, `None`) as `PyVal`; a missing
dictionary key raises `KeyError`, modelled through `Except`.  The provider
calls issued by the resolver are recorded in an explicit trace so that
temporal claims (which providers were called, how many live inventory
queries were made) can be stated.
-/

/-- A Python value as it occurs in the resolver: `None`, a number, or a
string.  Numbers are modelled as rationals, which is exact for every literal
appearing in the code and spec (e.g. `0.0`, `5.0`, `10.0`). -/
inductive PyVal where
  | none
  | num (q : Rat)
  | str (s : String)
deriving DecidableEq, Repr

/-- A Python dict with string keys, as an association list (first binding of
a key wins, insertion order preserved — matching CPython dict semantics for
the operations the resolver uses). -/
abbrev PyDict := List (String × PyVal)

/-- `d[k]` returning `Option`: `some v` when the key is bound, `none` for a
`KeyError`. -/
def dget : PyDict → String → Option PyVal
  | [], _ => Option.none
  | p :: ps, k => if p.1 = k then some p.2 else dget ps k

/-- Lookup in a dict whose keys are arbitrary Python values and whose values
are dicts (the per-channel coordinate table `station_coordinates`, keyed by
`waveform["channel_id"]`). -/
def vget : List (PyVal × PyDict) → PyVal → Option PyDict
  | [], _ => Option.none
  | p :: ps, k => if p.1 = k then some p.2 else vget ps k

/-- Lookup in a dict whose keys are station-id strings and whose values are
dicts (the inventory snapshot and the result accumulator `stations`). -/
def sget : List (String × PyDict) → String → Option PyDict
  | [], _ => Option.none
  | p :: ps, k => if p.1 = k then some p.2 else sget ps k

/-- Python truthiness of a value, as used by `if coords["latitude"]:` —
`None` and `0.0` and `""` are falsy. -/
def pyTruthy : PyVal → Bool
  | PyVal.none => false
  | PyVal.num q => q != 0
  | PyVal.str s => s != ""

/-- `"%s" %` formatting of a value, used by
`"%s.%s" % (waveform["network"], waveform["station"])`. -/
def pyStr : PyVal → String
  | PyVal.none => "None"
  | PyVal.num q => toString q
  | PyVal.str s => s

/-- The errors the embedded code can raise: `LASIFNotFoundError` (unknown
event, unbound registry name), `KeyError` (missing dict key), and the
registry's duplicate-name error. -/
inductive PyError where
  | notFound
  | keyError
  | duplicateName
deriving DecidableEq, Repr

/-- A provider call made by the resolver, recorded in execution order:
`waveforms.get_metadata_raw`, `stations.get_all_channels_at_time`,
`inventory_db.get_all_coordinates`, and each live
`inventory_db.get_coordinates(station_id)` query. -/
inductive ProviderCall where
  | waveformsCall
  | stationsCall
  | inventoryAllCall
  | liveQuery (station_id : String)
deriving DecidableEq, Repr

/-- An event as used by the resolver: only its origin time is consulted
(`event["origin_time"]`). -/
structure Event where
  origin_time : PyVal
deriving DecidableEq, Repr

/-- The communicator as seen from `QueryComponent.get_all_stations_for_event`:
the provider operations it invokes.  `events_get` returns `none` when the
event is unknown (the provider raises `LASIFNotFoundError`). -/
structure Comm where
  events_get : String → Option Event
  waveforms_get_metadata_raw : String → List PyDict
  stations_get_all_channels_at_time : PyVal → List (PyVal × PyDict)
  inventory_db_get_all_coordinates : List (String × PyDict)
  inventory_db_get_coordinates : String → PyDict

/-- `d[k]` raising `KeyError` when the key is missing. -/
def getItem (d : PyDict) (k : String) : Except PyError PyVal :=
  match dget d k with
  | some v => Except.ok v
  | Option.none => Except.error PyError.keyError

/-- `station_id = "%s.%s" % (waveform["network"], waveform["station"])`. -/
def stationIdOf (net sta : PyVal) : String :=
  pyStr net ++ "." ++ pyStr sta

/-- One iteration of the resolver's loop body (`for waveform in
waveform_metadata:`), translated branch for branch from
`query.py:get_all_stations_for_event`.  Returns the updated `stations`
accumulator (or the uncaught exception) together with the updated trace of
live inventory queries.  The `try/except KeyError` around
`station_coordinates[waveform["channel_id"]]` covers both subscripts, hence
both lookups skip the entry on a miss; every other missing key is an
uncaught `KeyError`. -/
def processWaveform (comm : Comm)
    (station_coordinates : List (PyVal × PyDict))
    (inventory_coordinates : List (String × PyDict))
    (stations : List (String × PyDict)) (log : List ProviderCall)
    (waveform : PyDict) :
    Except PyError (List (String × PyDict)) × List ProviderCall :=
  match getItem waveform "network", getItem waveform "station" with
  | Except.error e, _ => (Except.error e, log)
  | Except.ok _, Except.error e => (Except.error e, log)
  | Except.ok net, Except.ok sta =>
    if (sget stations (stationIdOf net sta)).isSome then
      (Except.ok stations, log)
    else
      match dget waveform "channel_id" with
      | Option.none => (Except.ok stations, log)
      | some channel_id =>
        match vget station_coordinates channel_id with
        | Option.none => (Except.ok stations, log)
        | some stat_coords =>
          match getItem stat_coords "latitude" with
          | Except.error e => (Except.error e, log)
          | Except.ok lat1 =>
            if lat1 ≠ PyVal.none then
              (Except.ok (stations ++ [(stationIdOf net sta, stat_coords)]), log)
            else
              match getItem waveform "latitude" with
              | Except.error e => (Except.error e, log)
              | Except.ok lat2 =>
                if lat2 ≠ PyVal.none then
                  (Except.ok (stations ++ [(stationIdOf net sta, waveform)]), log)
                else
                  match sget inventory_coordinates (stationIdOf net sta) with
                  | some coords =>
                    match getItem coords "latitude" with
                    | Except.error e => (Except.error e, log)
                    | Except.ok lat3 =>
                      if pyTruthy lat3 then
                        (Except.ok (stations ++ [(stationIdOf net sta, coords)]),
                         log)
                      else
                        (Except.ok stations, log)
                  | Option.none =>
                    match getItem
                        (comm.inventory_db_get_coordinates (stationIdOf net sta))
                        "latitude" with
                    | Except.error e =>
                      (Except.error e,
                       log ++ [ProviderCall.liveQuery (stationIdOf net sta)])
                    | Except.ok lat4 =>
                      if pyTruthy lat4 then
                        (Except.ok (stations ++
                          [(stationIdOf net sta,
                            comm.inventory_db_get_coordinates
                              (stationIdOf net sta))]),
                         log ++ [ProviderCall.liveQuery (stationIdOf net sta)])
                      else
                        (Except.ok stations,
                         log ++ [ProviderCall.liveQuery (stationIdOf net sta)])

/-- The resolver's loop over the waveform-metadata listing, threading the
`stations` accumulator and the provider-call trace; an uncaught exception
aborts the loop but keeps the trace accumulated so far. -/
def runLoop (comm : Comm) (station_coordinates : List (PyVal × PyDict))
    (inventory_coordinates : List (String × PyDict)) :
    List PyDict → List (String × PyDict) → List ProviderCall →
    Except PyError (List (String × PyDict)) × List ProviderCall
  | [], stations, log => (Except.ok stations, log)
  | w :: ws, stations, log =>
    match processWaveform comm station_coordinates inventory_coordinates
        stations log w with
    | (Except.ok stations2, log2) =>
      runLoop comm station_coordinates inventory_coordinates ws stations2 log2
    | (Except.error e, log2) => (Except.error e, log2)

/-- The trace after the three up-front provider calls made by the resolver
before its loop. -/
def initLog : List ProviderCall :=
  [ProviderCall.waveformsCall, ProviderCall.stationsCall,
   ProviderCall.inventoryAllCall]

/-- `QueryComponent.get_all_stations_for_event(event_name)`: looks up the
event (failing fast with `LASIFNotFoundError`), gathers the
waveform-metadata listing, the per-channel coordinate table at the event's
origin time, and the inventory snapshot, then folds the tiered resolution
over the listing.  Returns the result (or error) with the provider-call
trace. -/
def get_all_stations_for_event (comm : Comm) (event_name : String) :
    Except PyError (List (String × PyDict)) × List ProviderCall :=
  match comm.events_get event_name with
  | Option.none => (Except.error PyError.notFound, [])
  | some event =>
    let waveform_metadata := comm.waveforms_get_metadata_raw event_name
    let station_coordinates :=
      comm.stations_get_all_channels_at_time event.origin_time
    let inventory_coordinates := comm.inventory_db_get_all_coordinates
    runLoop comm station_coordinates inventory_coordinates waveform_metadata
      [] initLog

/-!
## Component setup and registry

`Project.__setup_components` (`project.py`) constructs the project's
components, each registering itself under its `component_name`.  The
`Communicator` class itself is not part of the two source files; its
register/get contract is modelled from the spec.
-/

/-- Modelled from the spec: the Communicator registry (the repository's
`communicator.py` is not among the source files).  `register(name, instance)`
fails with a duplicate-name error if `name` is already bound, otherwise binds
it; the registry is modelled by the list of bound names in registration
order. -/
def registryRegister (reg : List String) (name : String) :
    Except PyError (List String) :=
  if name ∈ reg then Except.error PyError.duplicateName
  else Except.ok (reg ++ [name])

/-- Modelled from the spec: `get(name)` fails with `NotFoundError` if `name`
is unbound in the registry. -/
def registryGet (reg : List String) (name : String) : Except PyError Unit :=
  if name ∈ reg then Except.ok () else Except.error PyError.notFound

/-- The component names constructed (and hence registered) by
`Project.__setup_components`, in construction order: `EventsComponent`,
`WaveformsComponent`, `KernelsComponent`, `IterationsComponent`,
`QueryComponent`, `VisualizationsComponent`, `ActionsComponent`,
`ValidatorComponent`, `WindowsAndAdjointSourcesComponent`,
`DownloadsComponent`. -/
def setup_component_names : List String :=
  ["events", "waveforms", "kernels", "iterations", "query", "visualizations",
   "actions", "validator", "wins_and_adj_sources", "downloads"]

/-- Registering the components of `Project.__setup_components` in order,
starting from the empty registry. -/
def setup_components : Except PyError (List String) :=
  setup_component_names.foldlM registryRegister []

/-!
## Concrete communicators

Used below as witnesses and counterexamples.  Each one describes one event
with a small provider configuration.
-/

/-- Event "E1": one waveform entry for NET.STA, whose channel CH1 has a
station-file record (latitude 10) while the inventory snapshot also knows
NET.STA (latitude 99): resolvable at tier 1 and tier 3 simultaneously. -/
def wE1 : PyDict :=
  [("network", PyVal.str "NET"), ("station", PyVal.str "STA"),
   ("channel_id", PyVal.str "CH1"), ("latitude", PyVal.none)]

/-- The CH1 station-file coordinate record of event "E1". -/
def cE1 : PyDict :=
  [("latitude", PyVal.num 10), ("longitude", PyVal.num 20),
   ("elevation_in_m", PyVal.num 0), ("local_depth_in_m", PyVal.num 0)]

/-- Communicator for the "E1" scenario. -/
def commE1 : Comm where
  events_get := fun en => if en = "E1" then some ⟨PyVal.num 0⟩ else Option.none
  waveforms_get_metadata_raw := fun en => if en = "E1" then [wE1] else []
  stations_get_all_channels_at_time := fun _ => [(PyVal.str "CH1", cE1)]
  inventory_db_get_all_coordinates :=
    [("NET.STA", [("latitude", PyVal.num 99), ("longitude", PyVal.num 98),
                  ("elevation_in_m", PyVal.num 0),
                  ("local_depth_in_m", PyVal.num 0)])]
  inventory_db_get_coordinates := fun _ => [("latitude", PyVal.none)]

/-- Event "E2" exactly as in the spec's concrete scenario: one waveform
entry for NET.STB with embedded latitude 5.0 and no station-file entry for
its channel. -/
def wE2 : PyDict :=
  [("network", PyVal.str "NET"), ("station", PyVal.str "STB"),
   ("channel_id", PyVal.str "CH2"), ("latitude", PyVal.num 5),
   ("longitude", PyVal.num 6), ("elevation_in_m", PyVal.num 7),
   ("local_depth_in_m", PyVal.num 0)]

/-- Communicator for the spec's "E2" scenario: no station files at all. -/
def commE2 : Comm where
  events_get := fun en => if en = "E2" then some ⟨PyVal.num 0⟩ else Option.none
  waveforms_get_metadata_raw := fun en => if en = "E2" then [wE2] else []
  stations_get_all_channels_at_time := fun _ => []
  inventory_db_get_all_coordinates := []
  inventory_db_get_coordinates := fun _ => [("latitude", PyVal.none)]

/-- An all-null station-file coordinate record. -/
def cNull : PyDict :=
  [("latitude", PyVal.none), ("longitude", PyVal.none),
   ("elevation_in_m", PyVal.none), ("local_depth_in_m", PyVal.none)]

/-- Communicator for a tier-2 resolution: like "E2" but the channel CH2 has
a station-file record with null latitude, so the embedded coordinates of
`wE2` are used. -/
def commE2f : Comm where
  events_get := fun en => if en = "E2" then some ⟨PyVal.num 0⟩ else Option.none
  waveforms_get_metadata_raw := fun en => if en = "E2" then [wE2] else []
  stations_get_all_channels_at_time := fun _ => [(PyVal.str "CH2", cNull)]
  inventory_db_get_all_coordinates := []
  inventory_db_get_coordinates := fun _ => [("latitude", PyVal.none)]

/-- Event "E3": one waveform entry for NET.STC reaching tier 3, where the
inventory snapshot has latitude 0.0 for NET.STC. -/
def wE3 : PyDict :=
  [("network", PyVal.str "NET"), ("station", PyVal.str "STC"),
   ("channel_id", PyVal.str "CH3"), ("latitude", PyVal.none)]

/-- The inventory snapshot record of NET.STC with latitude 0.0. -/
def icE3 : PyDict :=
  [("latitude", PyVal.num 0), ("longitude", PyVal.num 1),
   ("elevation_in_m", PyVal.num 2), ("local_depth_in_m", PyVal.num 0)]

/-- Communicator for the "E3" scenario. -/
def commE3 : Comm where
  events_get := fun en => if en = "E3" then some ⟨PyVal.num 0⟩ else Option.none
  waveforms_get_metadata_raw := fun en => if en = "E3" then [wE3] else []
  stations_get_all_channels_at_time := fun _ => [(PyVal.str "CH3", cNull)]
  inventory_db_get_all_coordinates := [("NET.STC", icE3)]
  inventory_db_get_coordinates := fun _ => [("latitude", PyVal.none)]

/-- Event "E4": two waveform entries (two channels) of station NET.STD, both
reaching tier 4; the station is absent from the inventory snapshot and the
live query finds no coordinates. -/
def wE4a : PyDict :=
  [("network", PyVal.str "NET"), ("station", PyVal.str "STD"),
   ("channel_id", PyVal.str "CH4A"), ("latitude", PyVal.none)]

/-- The second channel entry of NET.STD in event "E4". -/
def wE4b : PyDict :=
  [("network", PyVal.str "NET"), ("station", PyVal.str "STD"),
   ("channel_id", PyVal.str "CH4B"), ("latitude", PyVal.none)]

/-- Communicator for the "E4" scenario. -/
def commE4 : Comm where
  events_get := fun en => if en = "E4" then some ⟨PyVal.num 0⟩ else Option.none
  waveforms_get_metadata_raw := fun en => if en = "E4" then [wE4a, wE4b] else []
  stations_get_all_channels_at_time := fun _ =>
    [(PyVal.str "CH4A", cNull), (PyVal.str "CH4B", cNull)]
  inventory_db_get_all_coordinates := []
  inventory_db_get_coordinates := fun _ => [("latitude", PyVal.none)]

/-- Communicator for a tier-4 success: like "E4" but with a single entry and
a live query that resolves latitude 3.0. -/
def commE4s : Comm where
  events_get := fun en => if en = "E4" then some ⟨PyVal.num 0⟩ else Option.none
  waveforms_get_metadata_raw := fun en => if en = "E4" then [wE4a] else []
  stations_get_all_channels_at_time := fun _ => [(PyVal.str "CH4A", cNull)]
  inventory_db_get_all_coordinates := []
  inventory_db_get_coordinates := fun _ =>
    [("latitude", PyVal.num 3), ("longitude", PyVal.num 4),
     ("elevation_in_m", PyVal.num 0), ("local_depth_in_m", PyVal.num 0)]

/-- Event "E5": one entry for NET.STE whose snapshot entry has a null
latitude (a negative-cache entry). -/
def wE5 : PyDict :=
  [("network", PyVal.str "NET"), ("station", PyVal.str "STE"),
   ("channel_id", PyVal.str "CH5"), ("latitude", PyVal.none)]

/-- Communicator for the "E5" scenario (negative cache hit). -/
def commE5 : Comm where
  events_get := fun en => if en = "E5" then some ⟨PyVal.num 0⟩ else Option.none
  waveforms_get_metadata_raw := fun en => if en = "E5" then [wE5] else []
  stations_get_all_channels_at_time := fun _ => [(PyVal.str "CH5", cNull)]
  inventory_db_get_all_coordinates := [("NET.STE", [("latitude", PyVal.none)])]
  inventory_db_get_coordinates := fun _ => [("latitude", PyVal.num 7)]


/-- Communicator for an event "E0" with an empty waveform-metadata
listing. -/
def commEmpty : Comm where
  events_get := fun en => if en = "E0" then some ⟨PyVal.num 0⟩ else Option.none
  waveforms_get_metadata_raw := fun _ => []
  stations_get_all_channels_at_time := fun _ => []
  inventory_db_get_all_coordinates := []
  inventory_db_get_coordinates := fun _ => [("latitude", PyVal.none)]

/-!
## Lookup lemmas
-/

/-- A binding found in a prefix is found in the whole list. -/
theorem sget_append_left {a : List (String × PyDict)} (b : List (String × PyDict))
    {k : String} {v : PyDict} (h : sget a k = some v) : sget (a ++ b) k = some v := by
  induction a with
  | nil => simp [sget] at h
  | cons p ps ih =>
    by_cases hpk : p.1 = k
    · simp only [List.cons_append, sget, if_pos hpk] at h ⊢; exact h
    · simp only [List.cons_append, sget, if_neg hpk] at h ⊢; exact ih h

/-- A key unbound in the prefix is looked up in the suffix. -/
theorem sget_append_right {a : List (String × PyDict)} (b : List (String × PyDict))
    {k : String} (h : sget a k = Option.none) : sget (a ++ b) k = sget b k := by
  induction a with
  | nil => simp
  | cons p ps ih =>
    by_cases hpk : p.1 = k
    · simp only [sget, if_pos hpk] at h; cases h
    · simp only [List.cons_append, sget, if_neg hpk] at h ⊢; exact ih h

/-- Lookup in a one-binding map. -/
theorem sget_singleton (k : String) (v : PyDict) : sget [(k, v)] k = some v := by
  simp [sget]

/-- An unbound key is not among the keys. -/
theorem not_mem_keys_of_sget_none {a : List (String × PyDict)} {k : String}
    (h : sget a k = Option.none) : k ∉ a.map Prod.fst := by
  induction a with
  | nil => simp
  | cons p ps ih =>
    by_cases hpk : p.1 = k
    · simp only [sget, if_pos hpk] at h; cases h
    · simp only [sget, if_neg hpk] at h
      simp only [List.map_cons, List.mem_cons]
      rintro (rfl | hk)
      · exact hpk rfl
      · exact ih h hk

/-- `getItem` succeeds exactly when the key is bound. -/
theorem getItem_ok_iff {d : PyDict} {k : String} {v : PyVal} :
    getItem d k = Except.ok v ↔ dget d k = some v := by
  unfold getItem
  cases hd : dget d k <;> simp

/-!
## Resolution tiers

`resolvedTier12 sc w sid v` states that processing the waveform-metadata
entry `w` resolves station `sid` to the record `v` from tier 1 (the
channel's station-file record, non-null latitude) or tier 2 (the entry `w`
itself, when the station-file record has a null latitude but `w` embeds a
non-null one).  `resolvedTier34` states resolution from the inventory
snapshot (tier 3) or a live inventory query (tier 4), both requiring a
truthy latitude and reached only when tiers 1 and 2 found null latitudes.
-/

/-- The entry `w` names station `sid` (`"%s.%s" % (network, station)`). -/
def stationKey (w : PyDict) (sid : String) : Prop :=
  ∃ net sta, dget w "network" = some net ∧ dget w "station" = some sta ∧
    sid = stationIdOf net sta

/-- The per-channel coordinate table has record `c` for `w`'s channel. -/
def channelRecord (sc : List (PyVal × PyDict)) (w : PyDict) (c : PyDict) : Prop :=
  ∃ ch, dget w "channel_id" = some ch ∧ vget sc ch = some c

/-- Station `sid` is resolved to `v` by entry `w` at tier 1 or tier 2. -/
def resolvedTier12 (sc : List (PyVal × PyDict)) (w : PyDict) (sid : String)
    (v : PyDict) : Prop :=
  stationKey w sid ∧ ∃ c, channelRecord sc w c ∧
    ((∃ l, dget c "latitude" = some l ∧ l ≠ PyVal.none ∧ v = c) ∨
     (dget c "latitude" = some PyVal.none ∧
      (∃ l, dget w "latitude" = some l ∧ l ≠ PyVal.none) ∧ v = w))

/-- Station `sid` is resolved to `v` by entry `w` at tier 3 or tier 4. -/
def resolvedTier34 (comm : Comm) (sc : List (PyVal × PyDict))
    (inv : List (String × PyDict)) (w : PyDict) (sid : String)
    (v : PyDict) : Prop :=
  stationKey w sid ∧ (∃ c, channelRecord sc w c ∧ dget c "latitude" = some PyVal.none) ∧
    dget w "latitude" = some PyVal.none ∧
    ((sget inv sid = some v ∧ ∃ l, dget v "latitude" = some l ∧ pyTruthy l = true) ∨
     (sget inv sid = Option.none ∧ v = comm.inventory_db_get_coordinates sid ∧
      ∃ l, dget v "latitude" = some l ∧ pyTruthy l = true))

/-- Station `sid` is resolved to `v` by entry `w` at some tier. -/
def resolvedFrom (comm : Comm) (sc : List (PyVal × PyDict))
    (inv : List (String × PyDict)) (w : PyDict) (sid : String)
    (v : PyDict) : Prop :=
  resolvedTier12 sc w sid v ∨ resolvedTier34 comm sc inv w sid v


/-!
## Branch equations for one loop iteration

One equation lemma per control path of `processWaveform`, keyed by the
dictionary lookups that drive the branch.
-/

/-- Missing `network` key: uncaught `KeyError`. -/
theorem pw_err_network (comm : Comm) (sc : List (PyVal × PyDict))
    (inv stations : List (String × PyDict)) (log : List ProviderCall)
    (w : PyDict) (hnet : dget w "network" = Option.none) :
    processWaveform comm sc inv stations log w =
      (Except.error PyError.keyError, log) := by
  unfold processWaveform getItem
  simp [hnet]

/-- Missing `station` key: uncaught `KeyError`. -/
theorem pw_err_station (comm : Comm) (sc : List (PyVal × PyDict))
    (inv stations : List (String × PyDict)) (log : List ProviderCall)
    (w : PyDict) (net : PyVal) (hnet : dget w "network" = some net)
    (hsta : dget w "station" = Option.none) :
    processWaveform comm sc inv stations log w =
      (Except.error PyError.keyError, log) := by
  unfold processWaveform getItem
  simp [hnet, hsta]

/-- Station already in the result set: skip (`continue`). -/
theorem pw_skip_seen (comm : Comm) (sc : List (PyVal × PyDict))
    (inv stations : List (String × PyDict)) (log : List ProviderCall)
    (w : PyDict) (net sta : PyVal) (v0 : PyDict)
    (hnet : dget w "network" = some net) (hsta : dget w "station" = some sta)
    (hmem : sget stations (stationIdOf net sta) = some v0) :
    processWaveform comm sc inv stations log w = (Except.ok stations, log) := by
  unfold processWaveform getItem
  simp [hnet, hsta, hmem]

/-- Missing `channel_id` key: `KeyError` caught by the `try`, entry
skipped. -/
theorem pw_skip_nochannel (comm : Comm) (sc : List (PyVal × PyDict))
    (inv stations : List (String × PyDict)) (log : List ProviderCall)
    (w : PyDict) (net sta : PyVal)
    (hnet : dget w "network" = some net) (hsta : dget w "station" = some sta)
    (hmem : sget stations (stationIdOf net sta) = Option.none)
    (hch : dget w "channel_id" = Option.none) :
    processWaveform comm sc inv stations log w = (Except.ok stations, log) := by
  unfold processWaveform getItem
  simp [hnet, hsta, hmem, hch]

/-- No station-file record for the channel: `KeyError` caught, entry
skipped. -/
theorem pw_skip_nofile (comm : Comm) (sc : List (PyVal × PyDict))
    (inv stations : List (String × PyDict)) (log : List ProviderCall)
    (w : PyDict) (net sta ch : PyVal)
    (hnet : dget w "network" = some net) (hsta : dget w "station" = some sta)
    (hmem : sget stations (stationIdOf net sta) = Option.none)
    (hch : dget w "channel_id" = some ch)
    (hvc : vget sc ch = Option.none) :
    processWaveform comm sc inv stations log w = (Except.ok stations, log) := by
  unfold processWaveform getItem
  simp [hnet, hsta, hmem, hch, hvc]

/-- Station-file record lacks a `latitude` key: uncaught `KeyError`. -/
theorem pw_err_lat1 (comm : Comm) (sc : List (PyVal × PyDict))
    (inv stations : List (String × PyDict)) (log : List ProviderCall)
    (w : PyDict) (net sta ch : PyVal) (c : PyDict)
    (hnet : dget w "network" = some net) (hsta : dget w "station" = some sta)
    (hmem : sget stations (stationIdOf net sta) = Option.none)
    (hch : dget w "channel_id" = some ch) (hvc : vget sc ch = some c)
    (hl1 : dget c "latitude" = Option.none) :
    processWaveform comm sc inv stations log w =
      (Except.error PyError.keyError, log) := by
  unfold processWaveform getItem
  simp [hnet, hsta, hmem, hch, hvc, hl1]

/-- Tier 1: the station-file record has a non-null latitude and is
accepted. -/
theorem pw_tier1 (comm : Comm) (sc : List (PyVal × PyDict))
    (inv stations : List (String × PyDict)) (log : List ProviderCall)
    (w : PyDict) (net sta ch l1 : PyVal) (c : PyDict)
    (hnet : dget w "network" = some net) (hsta : dget w "station" = some sta)
    (hmem : sget stations (stationIdOf net sta) = Option.none)
    (hch : dget w "channel_id" = some ch) (hvc : vget sc ch = some c)
    (hl1 : dget c "latitude" = some l1) (hne : l1 ≠ PyVal.none) :
    processWaveform comm sc inv stations log w =
      (Except.ok (stations ++ [(stationIdOf net sta, c)]), log) := by
  unfold processWaveform getItem
  simp [hnet, hsta, hmem, hch, hvc, hl1, hne]

/-- Waveform entry lacks a `latitude` key: uncaught `KeyError`. -/
theorem pw_err_lat2 (comm : Comm) (sc : List (PyVal × PyDict))
    (inv stations : List (String × PyDict)) (log : List ProviderCall)
    (w : PyDict) (net sta ch : PyVal) (c : PyDict)
    (hnet : dget w "network" = some net) (hsta : dget w "station" = some sta)
    (hmem : sget stations (stationIdOf net sta) = Option.none)
    (hch : dget w "channel_id" = some ch) (hvc : vget sc ch = some c)
    (hl1 : dget c "latitude" = some PyVal.none)
    (hl2 : dget w "latitude" = Option.none) :
    processWaveform comm sc inv stations log w =
      (Except.error PyError.keyError, log) := by
  unfold processWaveform getItem
  simp [hnet, hsta, hmem, hch, hvc, hl1, hl2]

/-- Tier 2: the waveform entry embeds a non-null latitude and the whole
entry is accepted as the station's record. -/
theorem pw_tier2 (comm : Comm) (sc : List (PyVal × PyDict))
    (inv stations : List (String × PyDict)) (log : List ProviderCall)
    (w : PyDict) (net sta ch l2 : PyVal) (c : PyDict)
    (hnet : dget w "network" = some net) (hsta : dget w "station" = some sta)
    (hmem : sget stations (stationIdOf net sta) = Option.none)
    (hch : dget w "channel_id" = some ch) (hvc : vget sc ch = some c)
    (hl1 : dget c "latitude" = some PyVal.none)
    (hl2 : dget w "latitude" = some l2) (hne : l2 ≠ PyVal.none) :
    processWaveform comm sc inv stations log w =
      (Except.ok (stations ++ [(stationIdOf net sta, w)]), log) := by
  unfold processWaveform getItem
  simp [hnet, hsta, hmem, hch, hvc, hl1, hl2, hne]

/-- Inventory snapshot record lacks a `latitude` key: uncaught `KeyError`. -/
theorem pw_err_lat3 (comm : Comm) (sc : List (PyVal × PyDict))
    (inv stations : List (String × PyDict)) (log : List ProviderCall)
    (w : PyDict) (net sta ch : PyVal) (c ic : PyDict)
    (hnet : dget w "network" = some net) (hsta : dget w "station" = some sta)
    (hmem : sget stations (stationIdOf net sta) = Option.none)
    (hch : dget w "channel_id" = some ch) (hvc : vget sc ch = some c)
    (hl1 : dget c "latitude" = some PyVal.none)
    (hl2 : dget w "latitude" = some PyVal.none)
    (hinv : sget inv (stationIdOf net sta) = some ic)
    (hl3 : dget ic "latitude" = Option.none) :
    processWaveform comm sc inv stations log w =
      (Except.error PyError.keyError, log) := by
  unfold processWaveform getItem
  simp [hnet, hsta, hmem, hch, hvc, hl1, hl2, hinv, hl3]

/-- Tier 3: the inventory snapshot record has a truthy latitude and is
accepted. -/
theorem pw_tier3 (comm : Comm) (sc : List (PyVal × PyDict))
    (inv stations : List (String × PyDict)) (log : List ProviderCall)
    (w : PyDict) (net sta ch l3 : PyVal) (c ic : PyDict)
    (hnet : dget w "network" = some net) (hsta : dget w "station" = some sta)
    (hmem : sget stations (stationIdOf net sta) = Option.none)
    (hch : dget w "channel_id" = some ch) (hvc : vget sc ch = some c)
    (hl1 : dget c "latitude" = some PyVal.none)
    (hl2 : dget w "latitude" = some PyVal.none)
    (hinv : sget inv (stationIdOf net sta) = some ic)
    (hl3 : dget ic "latitude" = some l3) (htr : pyTruthy l3 = true) :
    processWaveform comm sc inv stations log w =
      (Except.ok (stations ++ [(stationIdOf net sta, ic)]), log) := by
  unfold processWaveform getItem
  simp [hnet, hsta, hmem, hch, hvc, hl1, hl2, hinv, hl3, htr]

/-- Tier 3 negative cache: the inventory snapshot record has a falsy
latitude, the station is left absent without a live query. -/
theorem pw_tier3_neg (comm : Comm) (sc : List (PyVal × PyDict))
    (inv stations : List (String × PyDict)) (log : List ProviderCall)
    (w : PyDict) (net sta ch l3 : PyVal) (c ic : PyDict)
    (hnet : dget w "network" = some net) (hsta : dget w "station" = some sta)
    (hmem : sget stations (stationIdOf net sta) = Option.none)
    (hch : dget w "channel_id" = some ch) (hvc : vget sc ch = some c)
    (hl1 : dget c "latitude" = some PyVal.none)
    (hl2 : dget w "latitude" = some PyVal.none)
    (hinv : sget inv (stationIdOf net sta) = some ic)
    (hl3 : dget ic "latitude" = some l3) (htr : pyTruthy l3 = false) :
    processWaveform comm sc inv stations log w = (Except.ok stations, log) := by
  unfold processWaveform getItem
  simp [hnet, hsta, hmem, hch, hvc, hl1, hl2, hinv, hl3, htr]

/-- Live-query result lacks a `latitude` key: uncaught `KeyError`, after the
live query was issued. -/
theorem pw_err_lat4 (comm : Comm) (sc : List (PyVal × PyDict))
    (inv stations : List (String × PyDict)) (log : List ProviderCall)
    (w : PyDict) (net sta ch : PyVal) (c : PyDict)
    (hnet : dget w "network" = some net) (hsta : dget w "station" = some sta)
    (hmem : sget stations (stationIdOf net sta) = Option.none)
    (hch : dget w "channel_id" = some ch) (hvc : vget sc ch = some c)
    (hl1 : dget c "latitude" = some PyVal.none)
    (hl2 : dget w "latitude" = some PyVal.none)
    (hinv : sget inv (stationIdOf net sta) = Option.none)
    (hl4 : dget (comm.inventory_db_get_coordinates (stationIdOf net sta))
      "latitude" = Option.none) :
    processWaveform comm sc inv stations log w =
      (Except.error PyError.keyError,
       log ++ [ProviderCall.liveQuery (stationIdOf net sta)]) := by
  unfold processWaveform getItem
  simp [hnet, hsta, hmem, hch, hvc, hl1, hl2, hinv, hl4]

/-- Tier 4: the live query returns a truthy latitude and its record is
accepted. -/
theorem pw_tier4 (comm : Comm) (sc : List (PyVal × PyDict))
    (inv stations : List (String × PyDict)) (log : List ProviderCall)
    (w : PyDict) (net sta ch l4 : PyVal) (c : PyDict)
    (hnet : dget w "network" = some net) (hsta : dget w "station" = some sta)
    (hmem : sget stations (stationIdOf net sta) = Option.none)
    (hch : dget w "channel_id" = some ch) (hvc : vget sc ch = some c)
    (hl1 : dget c "latitude" = some PyVal.none)
    (hl2 : dget w "latitude" = some PyVal.none)
    (hinv : sget inv (stationIdOf net sta) = Option.none)
    (hl4 : dget (comm.inventory_db_get_coordinates (stationIdOf net sta))
      "latitude" = some l4)
    (htr : pyTruthy l4 = true) :
    processWaveform comm sc inv stations log w =
      (Except.ok (stations ++
        [(stationIdOf net sta,
          comm.inventory_db_get_coordinates (stationIdOf net sta))]),
       log ++ [ProviderCall.liveQuery (stationIdOf net sta)]) := by
  unfold processWaveform getItem
  simp [hnet, hsta, hmem, hch, hvc, hl1, hl2, hinv, hl4, htr]

/-- Tier 4 failure: the live query returns a falsy latitude, the station is
left absent (and the live query was still issued). -/
theorem pw_tier4_neg (comm : Comm) (sc : List (PyVal × PyDict))
    (inv stations : List (String × PyDict)) (log : List ProviderCall)
    (w : PyDict) (net sta ch l4 : PyVal) (c : PyDict)
    (hnet : dget w "network" = some net) (hsta : dget w "station" = some sta)
    (hmem : sget stations (stationIdOf net sta) = Option.none)
    (hch : dget w "channel_id" = some ch) (hvc : vget sc ch = some c)
    (hl1 : dget c "latitude" = some PyVal.none)
    (hl2 : dget w "latitude" = some PyVal.none)
    (hinv : sget inv (stationIdOf net sta) = Option.none)
    (hl4 : dget (comm.inventory_db_get_coordinates (stationIdOf net sta))
      "latitude" = some l4)
    (htr : pyTruthy l4 = false) :
    processWaveform comm sc inv stations log w =
      (Except.ok stations,
       log ++ [ProviderCall.liveQuery (stationIdOf net sta)]) := by
  unfold processWaveform getItem
  simp [hnet, hsta, hmem, hch, hvc, hl1, hl2, hinv, hl4, htr]

/-- Master case analysis of one loop iteration: the accumulator either stays
unchanged, or fails, or grows by exactly one binding whose key was
previously unbound and whose value is resolved from the entry at some tier;
the trace either stays unchanged or grows by exactly one live query, issued
only for a station absent from the inventory snapshot. -/
theorem processWaveform_spec (comm : Comm) (sc : List (PyVal × PyDict))
    (inv stations : List (String × PyDict)) (log : List ProviderCall)
    (w : PyDict) {res : Except PyError (List (String × PyDict))}
    {log2 : List ProviderCall}
    (h : processWaveform comm sc inv stations log w = (res, log2)) :
    ((res = Except.ok stations ∨ (∃ e, res = Except.error e)) ∨
      ∃ sid v, res = Except.ok (stations ++ [(sid, v)]) ∧
        sget stations sid = Option.none ∧ resolvedFrom comm sc inv w sid v) ∧
    (log2 = log ∨ ∃ sid, log2 = log ++ [ProviderCall.liveQuery sid] ∧
      sget inv sid = Option.none) := by
  rcases hnet : dget w "network" with _ | net
  · rw [pw_err_network comm sc inv stations log w hnet] at h
    cases h
    exact ⟨Or.inl (Or.inr ⟨_, rfl⟩), Or.inl rfl⟩
  rcases hsta : dget w "station" with _ | sta
  · rw [pw_err_station comm sc inv stations log w net hnet hsta] at h
    cases h
    exact ⟨Or.inl (Or.inr ⟨_, rfl⟩), Or.inl rfl⟩
  rcases hmem : sget stations (stationIdOf net sta) with _ | v0
  on_goal 2 =>
    rw [pw_skip_seen comm sc inv stations log w net sta v0 hnet hsta hmem] at h
    cases h
    exact ⟨Or.inl (Or.inl rfl), Or.inl rfl⟩
  rcases hch : dget w "channel_id" with _ | ch
  · rw [pw_skip_nochannel comm sc inv stations log w net sta hnet hsta hmem
      hch] at h
    cases h
    exact ⟨Or.inl (Or.inl rfl), Or.inl rfl⟩
  rcases hvc : vget sc ch with _ | c
  · rw [pw_skip_nofile comm sc inv stations log w net sta ch hnet hsta hmem
      hch hvc] at h
    cases h
    exact ⟨Or.inl (Or.inl rfl), Or.inl rfl⟩
  rcases hl1 : dget c "latitude" with _ | l1
  · rw [pw_err_lat1 comm sc inv stations log w net sta ch c hnet hsta hmem
      hch hvc hl1] at h
    cases h
    exact ⟨Or.inl (Or.inr ⟨_, rfl⟩), Or.inl rfl⟩
  by_cases hne : l1 = PyVal.none
  on_goal 2 =>
    rw [pw_tier1 comm sc inv stations log w net sta ch l1 c hnet hsta hmem
      hch hvc hl1 hne] at h
    cases h
    exact ⟨Or.inr ⟨_, _, rfl, hmem, Or.inl ⟨⟨net, sta, hnet, hsta, rfl⟩,
      c, ⟨ch, hch, hvc⟩, Or.inl ⟨l1, hl1, hne, rfl⟩⟩⟩, Or.inl rfl⟩
  subst hne
  rcases hl2 : dget w "latitude" with _ | l2
  · rw [pw_err_lat2 comm sc inv stations log w net sta ch c hnet hsta hmem
      hch hvc hl1 hl2] at h
    cases h
    exact ⟨Or.inl (Or.inr ⟨_, rfl⟩), Or.inl rfl⟩
  by_cases hne2 : l2 = PyVal.none
  on_goal 2 =>
    rw [pw_tier2 comm sc inv stations log w net sta ch l2 c hnet hsta hmem
      hch hvc hl1 hl2 hne2] at h
    cases h
    exact ⟨Or.inr ⟨_, _, rfl, hmem, Or.inl ⟨⟨net, sta, hnet, hsta, rfl⟩,
      c, ⟨ch, hch, hvc⟩, Or.inr ⟨hl1, ⟨l2, hl2, hne2⟩, rfl⟩⟩⟩, Or.inl rfl⟩
  subst hne2
  rcases hinv : sget inv (stationIdOf net sta) with _ | ic
  on_goal 2 =>
    rcases hl3 : dget ic "latitude" with _ | l3
    · rw [pw_err_lat3 comm sc inv stations log w net sta ch c ic hnet hsta
        hmem hch hvc hl1 hl2 hinv hl3] at h
      cases h
      exact ⟨Or.inl (Or.inr ⟨_, rfl⟩), Or.inl rfl⟩
    cases htr : pyTruthy l3
    · rw [pw_tier3_neg comm sc inv stations log w net sta ch l3 c ic hnet
        hsta hmem hch hvc hl1 hl2 hinv hl3 htr] at h
      cases h
      exact ⟨Or.inl (Or.inl rfl), Or.inl rfl⟩
    · rw [pw_tier3 comm sc inv stations log w net sta ch l3 c ic hnet hsta
        hmem hch hvc hl1 hl2 hinv hl3 htr] at h
      cases h
      exact ⟨Or.inr ⟨_, _, rfl, hmem, Or.inr ⟨⟨net, sta, hnet, hsta, rfl⟩,
        ⟨c, ⟨ch, hch, hvc⟩, hl1⟩, hl2,
        Or.inl ⟨hinv, l3, hl3, htr⟩⟩⟩, Or.inl rfl⟩
  rcases hl4 : dget (comm.inventory_db_get_coordinates (stationIdOf net sta))
      "latitude" with _ | l4
  · rw [pw_err_lat4 comm sc inv stations log w net sta ch c hnet hsta hmem
      hch hvc hl1 hl2 hinv hl4] at h
    cases h
    exact ⟨Or.inl (Or.inr ⟨_, rfl⟩), Or.inr ⟨_, rfl, hinv⟩⟩
  cases htr : pyTruthy l4
  · rw [pw_tier4_neg comm sc inv stations log w net sta ch l4 c hnet hsta
      hmem hch hvc hl1 hl2 hinv hl4 htr] at h
    cases h
    exact ⟨Or.inl (Or.inl rfl), Or.inr ⟨_, rfl, hinv⟩⟩
  · rw [pw_tier4 comm sc inv stations log w net sta ch l4 c hnet hsta hmem
      hch hvc hl1 hl2 hinv hl4 htr] at h
    cases h
    exact ⟨Or.inr ⟨_, _, rfl, hmem, Or.inr ⟨⟨net, sta, hnet, hsta, rfl⟩,
      ⟨c, ⟨ch, hch, hvc⟩, hl1⟩, hl2,
      Or.inr ⟨hinv, rfl, l4, hl4, htr⟩⟩⟩, Or.inr ⟨_, rfl, hinv⟩⟩

/-!
## Loop lemmas
-/

/-- The loop on an empty listing returns the accumulator unchanged. -/
theorem runLoop_nil (comm : Comm) (sc : List (PyVal × PyDict))
    (inv stations : List (String × PyDict)) (log : List ProviderCall) :
    runLoop comm sc inv [] stations log = (Except.ok stations, log) := rfl

/-- Unfolding the loop when the head iteration succeeds. -/
theorem runLoop_cons_ok (comm : Comm) (sc : List (PyVal × PyDict))
    (inv stations : List (String × PyDict)) (log : List ProviderCall)
    (w : PyDict) (ws : List PyDict) {s2 : List (String × PyDict)}
    {l2 : List ProviderCall}
    (hpw : processWaveform comm sc inv stations log w = (Except.ok s2, l2)) :
    runLoop comm sc inv (w :: ws) stations log =
      runLoop comm sc inv ws s2 l2 := by
  simp only [runLoop]
  rw [hpw]

/-- Unfolding the loop when the head iteration raises. -/
theorem runLoop_cons_err (comm : Comm) (sc : List (PyVal × PyDict))
    (inv stations : List (String × PyDict)) (log : List ProviderCall)
    (w : PyDict) (ws : List PyDict) {e : PyError} {l2 : List ProviderCall}
    (hpw : processWaveform comm sc inv stations log w = (Except.error e, l2)) :
    runLoop comm sc inv (w :: ws) stations log = (Except.error e, l2) := by
  unfold runLoop
  rw [hpw]

/-- The loop splits over a split of the listing. -/
theorem runLoop_append (comm : Comm) (sc : List (PyVal × PyDict))
    (inv : List (String × PyDict)) (ws1 ws2 : List PyDict) :
    ∀ (stations : List (String × PyDict)) (log : List ProviderCall),
    runLoop comm sc inv (ws1 ++ ws2) stations log =
      match runLoop comm sc inv ws1 stations log with
      | (Except.ok s2, l2) => runLoop comm sc inv ws2 s2 l2
      | (Except.error e, l2) => (Except.error e, l2) := by
  induction ws1 with
  | nil => intro stations log; rfl
  | cons w ws1 ih =>
    intro stations log
    rcases hpw : processWaveform comm sc inv stations log w with ⟨e | s2, l2⟩
    · rw [List.cons_append, runLoop_cons_err comm sc inv stations log w
        (ws1 ++ ws2) hpw, runLoop_cons_err comm sc inv stations log w ws1 hpw]
    · rw [List.cons_append, runLoop_cons_ok comm sc inv stations log w
        (ws1 ++ ws2) hpw, runLoop_cons_ok comm sc inv stations log w ws1 hpw]
      exact ih s2 l2

/-- A one-binding lookup succeeds only at its own key. -/
theorem sget_singleton_inv {k2 k : String} {v2 v : PyDict}
    (h : sget [(k2, v2)] k = some v) : k2 = k ∧ v2 = v := by
  by_cases hk : k2 = k
  · refine ⟨hk, ?_⟩
    unfold sget at h
    rw [if_pos hk] at h
    exact (Option.some.injEq _ _).mp h
  · unfold sget at h
    rw [if_neg hk] at h
    cases h

/-- A binding present in the accumulator survives the rest of the loop
(first-seen wins: bindings are only appended, never overwritten). -/
theorem runLoop_preserves (comm : Comm) (sc : List (PyVal × PyDict))
    (inv : List (String × PyDict)) (ws : List PyDict) :
    ∀ (stations : List (String × PyDict)) (log : List ProviderCall)
      {res : List (String × PyDict)} {log2 : List ProviderCall}
      {sid : String} {v : PyDict},
      sget stations sid = some v →
      runLoop comm sc inv ws stations log = (Except.ok res, log2) →
      sget res sid = some v := by
  induction ws with
  | nil =>
    intro stations log res log2 sid v hs h
    rw [runLoop_nil] at h
    cases h
    exact hs
  | cons w ws ih =>
    intro stations log res log2 sid v hs h
    rcases hpw : processWaveform comm sc inv stations log w with ⟨e | s2, l2⟩
    · rw [runLoop_cons_err comm sc inv stations log w ws hpw] at h
      cases h
    · rw [runLoop_cons_ok comm sc inv stations log w ws hpw] at h
      rcases (processWaveform_spec comm sc inv stations log w hpw).1 with
        (hok | ⟨e, habs⟩) | ⟨sid2, v2, hok, _, _⟩
      · injection hok with h2
        subst h2
        exact ih _ _ hs h
      · cases habs
      · injection hok with h2
        subst h2
        exact ih _ _ (sget_append_left _ hs) h

/-- Appending a fresh binding keeps the key list duplicate-free. -/
theorem nodup_keys_append {a : List (String × PyDict)} {k : String}
    {v : PyDict} (h : (a.map Prod.fst).Nodup) (hk : sget a k = Option.none) :
    (((a ++ [(k, v)]).map Prod.fst)).Nodup := by
  rw [List.map_append]
  rw [List.nodup_append]
  refine ⟨h, List.nodup_singleton k, ?_⟩
  intro x hx hx2
  simp only [List.map_cons, List.map_nil, List.mem_singleton] at hx2
  subst hx2
  exact not_mem_keys_of_sget_none hk hx

/-- The loop keeps the accumulator's keys duplicate-free. -/
theorem runLoop_nodup (comm : Comm) (sc : List (PyVal × PyDict))
    (inv : List (String × PyDict)) (ws : List PyDict) :
    ∀ (stations : List (String × PyDict)) (log : List ProviderCall)
      {res : List (String × PyDict)} {log2 : List ProviderCall},
      (stations.map Prod.fst).Nodup →
      runLoop comm sc inv ws stations log = (Except.ok res, log2) →
      (res.map Prod.fst).Nodup := by
  induction ws with
  | nil =>
    intro stations log res log2 hn h
    rw [runLoop_nil] at h
    cases h
    exact hn
  | cons w ws ih =>
    intro stations log res log2 hn h
    rcases hpw : processWaveform comm sc inv stations log w with ⟨e | s2, l2⟩
    · rw [runLoop_cons_err comm sc inv stations log w ws hpw] at h
      cases h
    · rw [runLoop_cons_ok comm sc inv stations log w ws hpw] at h
      rcases (processWaveform_spec comm sc inv stations log w hpw).1 with
        (hok | ⟨e, habs⟩) | ⟨sid2, v2, hok, hfresh, _⟩
      · injection hok with h2
        subst h2
        exact ih _ _ hn h
      · cases habs
      · injection hok with h2
        subst h2
        exact ih _ _ (nodup_keys_append hn hfresh) h

/-- Every live query appearing in the loop's final trace was either already
in the incoming trace or was issued for a station absent from the inventory
snapshot — whether or not the loop succeeded. -/
theorem runLoop_log (comm : Comm) (sc : List (PyVal × PyDict))
    (inv : List (String × PyDict)) (ws : List PyDict) :
    ∀ (stations : List (String × PyDict)) (log : List ProviderCall)
      {r : Except PyError (List (String × PyDict))} {log2 : List ProviderCall},
      runLoop comm sc inv ws stations log = (r, log2) →
      ∀ sid, ProviderCall.liveQuery sid ∈ log2 →
        ProviderCall.liveQuery sid ∈ log ∨ sget inv sid = Option.none := by
  induction ws with
  | nil =>
    intro stations log r log2 h sid hmem
    rw [runLoop_nil] at h
    cases h
    exact Or.inl hmem
  | cons w ws ih =>
    intro stations log r log2 h sid hmem
    rcases hpw : processWaveform comm sc inv stations log w with ⟨e | s2, l2⟩
    · rw [runLoop_cons_err comm sc inv stations log w ws hpw] at h
      cases h
      rcases (processWaveform_spec comm sc inv stations log w hpw).2 with
        hl | ⟨sid2, hl, hnone⟩
      · subst hl
        exact Or.inl hmem
      · subst hl
        rcases List.mem_append.mp hmem with hin | hone
        · exact Or.inl hin
        · rw [List.mem_singleton] at hone
          injection hone with h3
          subst h3
          exact Or.inr hnone
    · rw [runLoop_cons_ok comm sc inv stations log w ws hpw] at h
      rcases ih _ _ h sid hmem with hin2 | hnone
      · rcases (processWaveform_spec comm sc inv stations log w hpw).2 with
          hl | ⟨sid2, hl, hnone2⟩
        · subst hl
          exact Or.inl hin2
        · subst hl
          rcases List.mem_append.mp hin2 with hin | hone
          · exact Or.inl hin
          · rw [List.mem_singleton] at hone
            injection hone with h3
            subst h3
            exact Or.inr hnone2
      · exact Or.inr hnone

/-- Every binding of the loop's result was either already in the incoming
accumulator or was resolved from one of the processed entries at some
tier. -/
theorem runLoop_origin (comm : Comm) (sc : List (PyVal × PyDict))
    (inv : List (String × PyDict)) (ws : List PyDict) :
    ∀ (stations : List (String × PyDict)) (log : List ProviderCall)
      {res : List (String × PyDict)} {log2 : List ProviderCall},
      runLoop comm sc inv ws stations log = (Except.ok res, log2) →
      ∀ sid v, sget res sid = some v →
        sget stations sid = some v ∨
          ∃ w ∈ ws, resolvedFrom comm sc inv w sid v := by
  induction ws with
  | nil =>
    intro stations log res log2 h sid v hv
    rw [runLoop_nil] at h
    cases h
    exact Or.inl hv
  | cons w ws ih =>
    intro stations log res log2 h sid v hv
    rcases hpw : processWaveform comm sc inv stations log w with ⟨e | s2, l2⟩
    · rw [runLoop_cons_err comm sc inv stations log w ws hpw] at h
      cases h
    · rw [runLoop_cons_ok comm sc inv stations log w ws hpw] at h
      rcases (processWaveform_spec comm sc inv stations log w hpw).1 with
        (hok | ⟨e, habs⟩) | ⟨sid2, v2, hok, hfresh, hres⟩
      · injection hok with h2
        subst h2
        rcases ih _ _ h sid v hv with hold | ⟨w2, hw2, hr⟩
        · exact Or.inl hold
        · exact Or.inr ⟨w2, List.mem_cons_of_mem w hw2, hr⟩
      · cases habs
      · injection hok with h2
        subst h2
        rcases ih _ _ h sid v hv with hold | ⟨w2, hw2, hr⟩
        · rcases hself : sget stations sid with _ | v3
          · rw [sget_append_right _ hself] at hold
            rcases sget_singleton_inv hold with ⟨hk, hv2⟩
            subst hk
            subst hv2
            exact Or.inr ⟨w, List.mem_cons_self w ws, hres⟩
          · rw [sget_append_left _ hself] at hold
            injection hold with h4
            subst h4
            exact Or.inl rfl
        · exact Or.inr ⟨w2, List.mem_cons_of_mem w hw2, hr⟩

/-!
## Top-level unfolding
-/

/-- With a known event, the resolver is the loop over the listing, seeded
with the empty accumulator and the three up-front provider calls. -/
theorem gase_known (comm : Comm) (en : String) (ev : Event)
    (hev : comm.events_get en = some ev) :
    get_all_stations_for_event comm en =
      runLoop comm (comm.stations_get_all_channels_at_time ev.origin_time)
        comm.inventory_db_get_all_coordinates
        (comm.waveforms_get_metadata_raw en) [] initLog := by
  unfold get_all_stations_for_event
  rw [hev]

/-!
## Claims
-/

/-- C7: for every event name that does not name a previously ingested
event, `get_all_stations_for_event` fails with `NotFoundError` and no
provider call (waveforms, stations, inventory) is made beyond the event
lookup itself: the provider-call trace is empty. -/
theorem C7_unknown_event (comm : Comm) (en : String)
    (h : comm.events_get en = Option.none) :
    get_all_stations_for_event comm en =
      (Except.error PyError.notFound, []) := by
  unfold get_all_stations_for_event
  rw [h]

/-- Witness for C7 at the concrete communicator `commE1` and the unknown
event name "E9". -/
theorem C7_unknown_event_witness :
    get_all_stations_for_event commE1 "E9" =
      (Except.error PyError.notFound, []) :=
  C7_unknown_event commE1 "E9" rfl

/-- C9: for every event whose waveform-metadata listing is empty,
`get_all_stations_for_event` returns an empty mapping (after the three
up-front provider calls). -/
theorem C9_empty_listing (comm : Comm) (en : String) (ev : Event)
    (hev : comm.events_get en = some ev)
    (hwm : comm.waveforms_get_metadata_raw en = []) :
    get_all_stations_for_event comm en = (Except.ok [], initLog) := by
  rw [gase_known comm en ev hev, hwm, runLoop_nil]

/-- Witness for C9 at the concrete communicator `commEmpty`, event "E0". -/
theorem C9_empty_listing_witness :
    get_all_stations_for_event commEmpty "E0" = (Except.ok [], initLog) :=
  C9_empty_listing commEmpty "E0" ⟨PyVal.num 0⟩ rfl rfl

/-- C2 (refuted, code bug): `Project.__setup_components` registers the
components `events`, `waveforms`, `kernels`, `iterations`, `query`,
`visualizations`, `actions`, `validator`, `wins_and_adj_sources` and
`downloads` — but never a `stations` or an `inventory_db` component
(`StationsComponent` is imported but never instantiated), so the resolver's
registry lookups of `stations` and `inventory_db` fail with
`NotFoundError`, contrary to the claim that every provider the resolver
composes is registered before it operates. -/
theorem C2_missing_components :
    setup_components = Except.ok setup_component_names ∧
    registryGet setup_component_names "waveforms" = Except.ok () ∧
    registryGet setup_component_names "stations" =
      Except.error PyError.notFound ∧
    registryGet setup_component_names "inventory_db" =
      Except.error PyError.notFound :=
  ⟨rfl, rfl, rfl, rfl⟩

/-- C1: tier-1 precedence.  If the first waveform-metadata entry that gets
to resolve a station (no earlier entry having bound it) finds a
station-file record with a non-null latitude for its channel, the returned
record for that station is exactly that station-file record — regardless of
the inventory snapshot, in particular when the station is simultaneously
resolvable at tier 3 (snapshot entry with truthy latitude). -/
theorem C1_tier1_precedence (comm : Comm) (en : String) (ev : Event)
    (ws1 ws2 : List PyDict) (w : PyDict) (net sta ch l1 l3 : PyVal)
    (c ic : PyDict) (st1 : List (String × PyDict)) (log1 : List ProviderCall)
    (res : List (String × PyDict)) (log : List ProviderCall)
    (hev : comm.events_get en = some ev)
    (hwm : comm.waveforms_get_metadata_raw en = ws1 ++ w :: ws2)
    (hpre : runLoop comm (comm.stations_get_all_channels_at_time ev.origin_time)
      comm.inventory_db_get_all_coordinates ws1 [] initLog =
      (Except.ok st1, log1))
    (hnot : sget st1 (stationIdOf net sta) = Option.none)
    (hnet : dget w "network" = some net) (hsta : dget w "station" = some sta)
    (hch : dget w "channel_id" = some ch)
    (hvc : vget (comm.stations_get_all_channels_at_time ev.origin_time) ch =
      some c)
    (hl1 : dget c "latitude" = some l1) (hne : l1 ≠ PyVal.none)
    (hinv : sget comm.inventory_db_get_all_coordinates (stationIdOf net sta) =
      some ic)
    (hl3 : dget ic "latitude" = some l3) (htr : pyTruthy l3 = true)
    (hcall : get_all_stations_for_event comm en = (Except.ok res, log)) :
    sget res (stationIdOf net sta) = some c := by
  have hstep : runLoop comm
      (comm.stations_get_all_channels_at_time ev.origin_time)
      comm.inventory_db_get_all_coordinates (ws1 ++ w :: ws2) [] initLog =
      runLoop comm (comm.stations_get_all_channels_at_time ev.origin_time)
        comm.inventory_db_get_all_coordinates (w :: ws2) st1 log1 := by
    rw [runLoop_append comm (comm.stations_get_all_channels_at_time
      ev.origin_time) comm.inventory_db_get_all_coordinates ws1 (w :: ws2)
      [] initLog, hpre]
  have hpw := pw_tier1 comm
    (comm.stations_get_all_channels_at_time ev.origin_time)
    comm.inventory_db_get_all_coordinates st1 log1 w net sta ch l1 c
    hnet hsta hnot hch hvc hl1 hne
  rw [gase_known comm en ev hev, hwm, hstep,
    runLoop_cons_ok comm (comm.stations_get_all_channels_at_time
      ev.origin_time) comm.inventory_db_get_all_coordinates st1 log1 w ws2
      hpw] at hcall
  have hbound : sget (st1 ++ [(stationIdOf net sta, c)])
      (stationIdOf net sta) = some c := by
    rw [sget_append_right _ hnot]
    exact sget_singleton _ _
  exact runLoop_preserves comm
    (comm.stations_get_all_channels_at_time ev.origin_time)
    comm.inventory_db_get_all_coordinates ws2 _ _ hbound hcall

/-- Witness for C1 at the concrete communicator `commE1`: station NET.STA
is resolvable at tier 1 (station file, latitude 10) and at tier 3
(inventory snapshot, latitude 99); the result holds the tier-1 record. -/
theorem C1_tier1_precedence_witness :
    sget [("NET.STA", cE1)] "NET.STA" = some cE1 :=
  C1_tier1_precedence commE1 "E1" ⟨PyVal.num 0⟩ [] [] wE1
    (PyVal.str "NET") (PyVal.str "STA") (PyVal.str "CH1") (PyVal.num 10)
    (PyVal.num 99) cE1
    [("latitude", PyVal.num 99), ("longitude", PyVal.num 98),
     ("elevation_in_m", PyVal.num 0), ("local_depth_in_m", PyVal.num 0)]
    [] initLog [("NET.STA", cE1)] initLog
    rfl rfl rfl rfl rfl rfl rfl rfl rfl (by decide) rfl rfl (by decide) rfl

/-- C3 (refuted): in the spec's concrete "E2" scenario — one waveform entry
for NET.STB with embedded latitude 5.0 and no station-file entry for its
channel — the code skips the entry at the `try/except KeyError` (`# No
station file for channel.` / `continue`) and returns an empty mapping, not
the tier-2 record the claim expects. -/
theorem C3_cex_no_station_file :
    get_all_stations_for_event commE2 "E2" = (Except.ok [], initLog) ∧
    dget wE2 "latitude" = some (PyVal.num 5) := by
  exact ⟨rfl, rfl⟩

/-- C3 (amended): tier 2 requires a station-file record to exist for the
channel.  If the first entry that gets to resolve a station has a
station-file record with a null latitude but itself embeds a non-null
latitude, the station is accepted with the whole waveform-metadata entry as
its record (tier 2). -/
theorem C3_tier2_needs_station_file (comm : Comm) (en : String) (ev : Event)
    (ws1 ws2 : List PyDict) (w : PyDict) (net sta ch l2 : PyVal)
    (c : PyDict) (st1 : List (String × PyDict)) (log1 : List ProviderCall)
    (res : List (String × PyDict)) (log : List ProviderCall)
    (hev : comm.events_get en = some ev)
    (hwm : comm.waveforms_get_metadata_raw en = ws1 ++ w :: ws2)
    (hpre : runLoop comm (comm.stations_get_all_channels_at_time ev.origin_time)
      comm.inventory_db_get_all_coordinates ws1 [] initLog =
      (Except.ok st1, log1))
    (hnot : sget st1 (stationIdOf net sta) = Option.none)
    (hnet : dget w "network" = some net) (hsta : dget w "station" = some sta)
    (hch : dget w "channel_id" = some ch)
    (hvc : vget (comm.stations_get_all_channels_at_time ev.origin_time) ch =
      some c)
    (hl1 : dget c "latitude" = some PyVal.none)
    (hl2 : dget w "latitude" = some l2) (hne : l2 ≠ PyVal.none)
    (hcall : get_all_stations_for_event comm en = (Except.ok res, log)) :
    sget res (stationIdOf net sta) = some w := by
  have hstep : runLoop comm
      (comm.stations_get_all_channels_at_time ev.origin_time)
      comm.inventory_db_get_all_coordinates (ws1 ++ w :: ws2) [] initLog =
      runLoop comm (comm.stations_get_all_channels_at_time ev.origin_time)
        comm.inventory_db_get_all_coordinates (w :: ws2) st1 log1 := by
    rw [runLoop_append comm (comm.stations_get_all_channels_at_time
      ev.origin_time) comm.inventory_db_get_all_coordinates ws1 (w :: ws2)
      [] initLog, hpre]
  have hpw := pw_tier2 comm
    (comm.stations_get_all_channels_at_time ev.origin_time)
    comm.inventory_db_get_all_coordinates st1 log1 w net sta ch l2 c
    hnet hsta hnot hch hvc hl1 hl2 hne
  rw [gase_known comm en ev hev, hwm, hstep,
    runLoop_cons_ok comm (comm.stations_get_all_channels_at_time
      ev.origin_time) comm.inventory_db_get_all_coordinates st1 log1 w ws2
      hpw] at hcall
  have hbound : sget (st1 ++ [(stationIdOf net sta, w)])
      (stationIdOf net sta) = some w := by
    rw [sget_append_right _ hnot]
    exact sget_singleton _ _
  exact runLoop_preserves comm
    (comm.stations_get_all_channels_at_time ev.origin_time)
    comm.inventory_db_get_all_coordinates ws2 _ _ hbound hcall

/-- Witness for the amended C3 at `commE2f`: with a null-latitude
station-file record for channel CH2 in place, NET.STB resolves at tier 2 to
the whole waveform entry `wE2` (embedded latitude 5.0). -/
theorem C3_tier2_needs_station_file_witness :
    sget [("NET.STB", wE2)] "NET.STB" = some wE2 :=
  C3_tier2_needs_station_file commE2f "E2" ⟨PyVal.num 0⟩ [] [] wE2
    (PyVal.str "NET") (PyVal.str "STB") (PyVal.str "CH2") (PyVal.num 5)
    cNull [] initLog [("NET.STB", wE2)] initLog
    rfl rfl rfl rfl rfl rfl rfl rfl rfl rfl (by decide) rfl

/-- C4 (refuted): at tier 3 the code tests Python truthiness
(`if coords["latitude"]:`), not non-nullness.  At `commE3` the inventory
snapshot holds NET.STC with the present, non-null latitude 0.0, yet the
result is empty — the claim says the station should be accepted with that
record. -/
theorem C4_cex_zero_latitude :
    get_all_stations_for_event commE3 "E3" = (Except.ok [], initLog) ∧
    sget commE3.inventory_db_get_all_coordinates "NET.STC" = some icE3 ∧
    dget icE3 "latitude" = some (PyVal.num 0) :=
  ⟨rfl, rfl, rfl⟩

/-- C4 (amended): for a station reaching tier 3 (resp. tier 4), the
inventory record is accepted exactly when its latitude is truthy — present,
non-null and non-zero (non-empty for strings); a falsy latitude (null or
0.0) leaves the station absent. -/
theorem C4_truthiness :
    (∀ (comm : Comm) (en : String) (ev : Event) (w : PyDict)
       (net sta ch l3 : PyVal) (c ic : PyDict),
       comm.events_get en = some ev →
       comm.waveforms_get_metadata_raw en = [w] →
       dget w "network" = some net → dget w "station" = some sta →
       dget w "channel_id" = some ch →
       vget (comm.stations_get_all_channels_at_time ev.origin_time) ch =
         some c →
       dget c "latitude" = some PyVal.none →
       dget w "latitude" = some PyVal.none →
       sget comm.inventory_db_get_all_coordinates (stationIdOf net sta) =
         some ic →
       dget ic "latitude" = some l3 →
       get_all_stations_for_event comm en =
         (Except.ok (if pyTruthy l3 then [(stationIdOf net sta, ic)] else []),
          initLog)) ∧
    (∀ (comm : Comm) (en : String) (ev : Event) (w : PyDict)
       (net sta ch l4 : PyVal) (c : PyDict),
       comm.events_get en = some ev →
       comm.waveforms_get_metadata_raw en = [w] →
       dget w "network" = some net → dget w "station" = some sta →
       dget w "channel_id" = some ch →
       vget (comm.stations_get_all_channels_at_time ev.origin_time) ch =
         some c →
       dget c "latitude" = some PyVal.none →
       dget w "latitude" = some PyVal.none →
       sget comm.inventory_db_get_all_coordinates (stationIdOf net sta) =
         Option.none →
       dget (comm.inventory_db_get_coordinates (stationIdOf net sta))
         "latitude" = some l4 →
       get_all_stations_for_event comm en =
         (Except.ok (if pyTruthy l4 then
            [(stationIdOf net sta,
              comm.inventory_db_get_coordinates (stationIdOf net sta))]
          else []),
          initLog ++ [ProviderCall.liveQuery (stationIdOf net sta)])) := by
  constructor
  · intro comm en ev w net sta ch l3 c ic hev hwm hnet hsta hch hvc hl1 hl2
      hinv hl3
    rw [gase_known comm en ev hev, hwm]
    cases htr : pyTruthy l3
    · rw [runLoop_cons_ok comm (comm.stations_get_all_channels_at_time
        ev.origin_time) comm.inventory_db_get_all_coordinates [] initLog w []
        (pw_tier3_neg comm _ _ [] initLog w net sta ch l3 c ic hnet hsta rfl
          hch hvc hl1 hl2 hinv hl3 htr), runLoop_nil]
      simp [htr]
    · rw [runLoop_cons_ok comm (comm.stations_get_all_channels_at_time
        ev.origin_time) comm.inventory_db_get_all_coordinates [] initLog w []
        (pw_tier3 comm _ _ [] initLog w net sta ch l3 c ic hnet hsta rfl
          hch hvc hl1 hl2 hinv hl3 htr), runLoop_nil]
      simp [htr]
  · intro comm en ev w net sta ch l4 c hev hwm hnet hsta hch hvc hl1 hl2
      hinv hl4
    rw [gase_known comm en ev hev, hwm]
    cases htr : pyTruthy l4
    · rw [runLoop_cons_ok comm (comm.stations_get_all_channels_at_time
        ev.origin_time) comm.inventory_db_get_all_coordinates [] initLog w []
        (pw_tier4_neg comm _ _ [] initLog w net sta ch l4 c hnet hsta rfl
          hch hvc hl1 hl2 hinv hl4 htr), runLoop_nil]
      simp [htr]
    · rw [runLoop_cons_ok comm (comm.stations_get_all_channels_at_time
        ev.origin_time) comm.inventory_db_get_all_coordinates [] initLog w []
        (pw_tier4 comm _ _ [] initLog w net sta ch l4 c hnet hsta rfl
          hch hvc hl1 hl2 hinv hl4 htr), runLoop_nil]
      simp [htr]

/-- Witness for the amended C4: at `commE3` the tier-3 latitude 0.0 is
falsy, so NET.STC is absent; at `commE4s` the tier-4 live query returns the
truthy latitude 3.0, so NET.STD is accepted with the live record. -/
theorem C4_truthiness_witness :
    get_all_stations_for_event commE3 "E3" =
      (Except.ok (if pyTruthy (PyVal.num 0) then [("NET.STC", icE3)] else []),
       initLog) ∧
    get_all_stations_for_event commE4s "E4" =
      (Except.ok (if pyTruthy (PyVal.num 3) then
         [("NET.STD", commE4s.inventory_db_get_coordinates "NET.STD")]
       else []),
       initLog ++ [ProviderCall.liveQuery "NET.STD"]) :=
  ⟨C4_truthiness.1 commE3 "E3" ⟨PyVal.num 0⟩ wE3 (PyVal.str "NET")
     (PyVal.str "STC") (PyVal.str "CH3") (PyVal.num 0) cNull icE3
     rfl rfl rfl rfl rfl rfl rfl rfl rfl rfl,
   C4_truthiness.2 commE4s "E4" ⟨PyVal.num 0⟩ wE4a (PyVal.str "NET")
     (PyVal.str "STD") (PyVal.str "CH4A") (PyVal.num 3) cNull
     rfl rfl rfl rfl rfl rfl rfl rfl rfl rfl⟩

/-- C5: for a station present in the inventory snapshot with a null
latitude, no live inventory query is ever issued for it during the call
(whether the call succeeds or raises), and if the call succeeds and the
station is in the result, its record came from tier 1 or tier 2 of some
waveform-metadata entry — never from the snapshot. -/
theorem C5_negative_cache (comm : Comm) (en : String) (ev : Event)
    (sid : String) (ic : PyDict)
    (r : Except PyError (List (String × PyDict))) (log : List ProviderCall)
    (hev : comm.events_get en = some ev)
    (hinv : sget comm.inventory_db_get_all_coordinates sid = some ic)
    (hlat : dget ic "latitude" = some PyVal.none)
    (hcall : get_all_stations_for_event comm en = (r, log)) :
    ProviderCall.liveQuery sid ∉ log ∧
    ∀ res, r = Except.ok res → ∀ v, sget res sid = some v →
      ∃ w ∈ comm.waveforms_get_metadata_raw en,
        resolvedTier12 (comm.stations_get_all_channels_at_time ev.origin_time)
          w sid v := by
  rw [gase_known comm en ev hev] at hcall
  constructor
  · intro hmem
    rcases runLoop_log comm _ _ _ _ _ hcall sid hmem with hin | hnone
    · simp [initLog] at hin
    · rw [hinv] at hnone
      cases hnone
  · rintro res rfl v hv
    rcases runLoop_origin comm _ _ _ _ _ hcall sid v hv with hold | ⟨w, hw, hr⟩
    · simp [sget] at hold
    · rcases hr with h12 | h34
      · exact ⟨w, hw, h12⟩
      · exfalso
        rcases h34 with ⟨_, _, _, ⟨hsg, l, hl, htr⟩ | ⟨hsg, _, _⟩⟩
        · rw [hinv] at hsg
          injection hsg with h2
          subst h2
          rw [hlat] at hl
          injection hl with h3
          subst h3
          simp [pyTruthy] at htr
        · rw [hinv] at hsg
          cases hsg

/-- Witness for C5 at `commE5`: NET.STE sits in the snapshot with a null
latitude and no live query appears in the call's trace. -/
theorem C5_negative_cache_witness :
    ProviderCall.liveQuery "NET.STE" ∉ initLog :=
  (C5_negative_cache commE5 "E5" ⟨PyVal.num 0⟩ "NET.STE"
    [("latitude", PyVal.none)] (Except.ok []) initLog
    rfl rfl rfl rfl).1

/-- C6: the result binds each station identity at most once (its key list
is duplicate-free), and a binding made after any prefix of the
waveform-metadata listing survives to the final result unchanged
(first-seen wins, no overwrite). -/
theorem C6_first_seen_wins (comm : Comm) (en : String) (ev : Event)
    (res : List (String × PyDict)) (log : List ProviderCall)
    (hev : comm.events_get en = some ev)
    (hcall : get_all_stations_for_event comm en = (Except.ok res, log)) :
    (res.map Prod.fst).Nodup ∧
    ∀ (ws1 ws2 : List PyDict) (st1 : List (String × PyDict))
      (log1 : List ProviderCall) (sid : String) (v : PyDict),
      comm.waveforms_get_metadata_raw en = ws1 ++ ws2 →
      runLoop comm (comm.stations_get_all_channels_at_time ev.origin_time)
        comm.inventory_db_get_all_coordinates ws1 [] initLog =
        (Except.ok st1, log1) →
      sget st1 sid = some v → sget res sid = some v := by
  rw [gase_known comm en ev hev] at hcall
  refine ⟨runLoop_nodup comm _ _ _ _ _ (by simp) hcall, ?_⟩
  intro ws1 ws2 st1 log1 sid v hwm hpre hs
  rw [hwm] at hcall
  have hstep : runLoop comm
      (comm.stations_get_all_channels_at_time ev.origin_time)
      comm.inventory_db_get_all_coordinates (ws1 ++ ws2) [] initLog =
      runLoop comm (comm.stations_get_all_channels_at_time ev.origin_time)
        comm.inventory_db_get_all_coordinates ws2 st1 log1 := by
    rw [runLoop_append comm (comm.stations_get_all_channels_at_time
      ev.origin_time) comm.inventory_db_get_all_coordinates ws1 ws2 []
      initLog, hpre]
  rw [hstep] at hcall
  exact runLoop_preserves comm _ _ ws2 _ _ hs hcall

/-- Witness for C6 at `commE1`. -/
theorem C6_first_seen_wins_witness :
    (([("NET.STA", cE1)] : List (String × PyDict)).map Prod.fst).Nodup ∧
    sget [("NET.STA", cE1)] "NET.STA" = some cE1 :=
  ⟨(C6_first_seen_wins commE1 "E1" ⟨PyVal.num 0⟩ [("NET.STA", cE1)] initLog
      rfl rfl).1,
   (C6_first_seen_wins commE1 "E1" ⟨PyVal.num 0⟩ [("NET.STA", cE1)] initLog
      rfl rfl).2 [wE1] [] [("NET.STA", cE1)] initLog "NET.STA" cE1
      rfl rfl rfl⟩

/-- C8 (refuted): a tier-2 resolution stores the whole waveform-metadata
entry, not a four-field coordinate record: at `commE2f` the value bound to
NET.STB is the entry `wE2`, which carries the `network` and `channel_id`
fields on top of the coordinate fields. -/
theorem C8_cex_tier2_extra_fields :
    get_all_stations_for_event commE2f "E2" =
      (Except.ok [("NET.STB", wE2)], initLog) ∧
    dget wE2 "network" = some (PyVal.str "NET") ∧
    dget wE2 "channel_id" = some (PyVal.str "CH2") :=
  ⟨rfl, rfl, rfl⟩

/-- C8 (amended): every value of the result is stored verbatim from its
source: the station-file channel record (tier 1), the whole
waveform-metadata entry (tier 2 — which also carries `network`, `station`
and `channel_id` fields, so not exactly the four coordinate fields), the
inventory snapshot record (tier 3), or the live-query record (tier 4). -/
theorem C8_values_verbatim (comm : Comm) (en : String) (ev : Event)
    (res : List (String × PyDict)) (log : List ProviderCall)
    (hev : comm.events_get en = some ev)
    (hcall : get_all_stations_for_event comm en = (Except.ok res, log)) :
    ∀ sid v, sget res sid = some v →
      ∃ w ∈ comm.waveforms_get_metadata_raw en,
        resolvedFrom comm
          (comm.stations_get_all_channels_at_time ev.origin_time)
          comm.inventory_db_get_all_coordinates w sid v := by
  rw [gase_known comm en ev hev] at hcall
  intro sid v hv
  rcases runLoop_origin comm _ _ _ _ _ hcall sid v hv with hold | hex
  · simp [sget] at hold
  · exact hex

/-- Witness for the amended C8 at `commE1`. -/
theorem C8_values_verbatim_witness :
    ∃ w ∈ commE1.waveforms_get_metadata_raw "E1",
      resolvedFrom commE1
        (commE1.stations_get_all_channels_at_time (PyVal.num 0))
        commE1.inventory_db_get_all_coordinates w "NET.STA" cE1 :=
  C8_values_verbatim commE1 "E1" ⟨PyVal.num 0⟩ [("NET.STA", cE1)] initLog
    rfl rfl "NET.STA" cE1 rfl

/-- C10: the inventory snapshot is never refreshed during a call.  With two
waveform-metadata entries (two channels) of the same station, both reaching
tier 4, the station absent from the snapshot, and the live query returning
a falsy latitude, the call issues the live query twice for that station and
returns an empty mapping. -/
theorem C10_repeated_live_queries (comm : Comm) (en : String) (ev : Event)
    (w1 w2 : PyDict) (net sta ch1 ch2 l4 : PyVal) (c1 c2 : PyDict)
    (hev : comm.events_get en = some ev)
    (hwm : comm.waveforms_get_metadata_raw en = [w1, w2])
    (hnet1 : dget w1 "network" = some net)
    (hsta1 : dget w1 "station" = some sta)
    (hch1 : dget w1 "channel_id" = some ch1)
    (hvc1 : vget (comm.stations_get_all_channels_at_time ev.origin_time) ch1 =
      some c1)
    (hl11 : dget c1 "latitude" = some PyVal.none)
    (hl21 : dget w1 "latitude" = some PyVal.none)
    (hnet2 : dget w2 "network" = some net)
    (hsta2 : dget w2 "station" = some sta)
    (hch2 : dget w2 "channel_id" = some ch2)
    (hvc2 : vget (comm.stations_get_all_channels_at_time ev.origin_time) ch2 =
      some c2)
    (hl12 : dget c2 "latitude" = some PyVal.none)
    (hl22 : dget w2 "latitude" = some PyVal.none)
    (hinv : sget comm.inventory_db_get_all_coordinates (stationIdOf net sta) =
      Option.none)
    (hl4 : dget (comm.inventory_db_get_coordinates (stationIdOf net sta))
      "latitude" = some l4)
    (hfal : pyTruthy l4 = false) :
    get_all_stations_for_event comm en =
      (Except.ok [],
       initLog ++ [ProviderCall.liveQuery (stationIdOf net sta),
                   ProviderCall.liveQuery (stationIdOf net sta)]) := by
  rw [gase_known comm en ev hev, hwm]
  rw [runLoop_cons_ok comm (comm.stations_get_all_channels_at_time
    ev.origin_time) comm.inventory_db_get_all_coordinates [] initLog w1 [w2]
    (pw_tier4_neg comm _ _ [] initLog w1 net sta ch1 l4 c1 hnet1 hsta1 rfl
      hch1 hvc1 hl11 hl21 hinv hl4 hfal)]
  rw [runLoop_cons_ok comm (comm.stations_get_all_channels_at_time
    ev.origin_time) comm.inventory_db_get_all_coordinates []
    (initLog ++ [ProviderCall.liveQuery (stationIdOf net sta)]) w2 []
    (pw_tier4_neg comm _ _ []
      (initLog ++ [ProviderCall.liveQuery (stationIdOf net sta)]) w2 net sta
      ch2 l4 c2 hnet2 hsta2 rfl hch2 hvc2 hl12 hl22 hinv hl4 hfal)]
  rw [runLoop_nil]
  simp

/-- Witness for C10 at `commE4`: the live query for NET.STD is issued once
per channel entry, twice in total. -/
theorem C10_repeated_live_queries_witness :
    get_all_stations_for_event commE4 "E4" =
      (Except.ok [],
       initLog ++ [ProviderCall.liveQuery "NET.STD",
                   ProviderCall.liveQuery "NET.STD"]) :=
  C10_repeated_live_queries commE4 "E4" ⟨PyVal.num 0⟩ wE4a wE4b
    (PyVal.str "NET") (PyVal.str "STD") (PyVal.str "CH4A") (PyVal.str "CH4B")
    PyVal.none cNull cNull
    rfl rfl rfl rfl rfl rfl rfl rfl rfl rfl rfl rfl rfl rfl rfl rfl rfl
